import Mathlib

/-!
Verification of `Environment Setup/setup_project.py`.

The script is modelled as a state machine over a `World`: an association-list
filesystem (path to entry), a stdin stream with a read cursor, an oracle
telling which `os.makedirs` calls raise `OSError`, a flag for the interpreter
presence check, and a log of emitted messages.  Every Python function of the
script becomes a Lean function `World → ... → PyResult α`, where the error
channel carries `sys.exit` codes and the one uncaught exception the script can
raise.  Strings are Lean `String`; the Python functions str.strip and
str.lower and the `\w` character class are modelled over the ASCII range (all
inputs appearing in the claims are ASCII).
-/

namespace SetupProject

/-- A filesystem entry: a directory or a regular file with its full text content. -/
inductive Entry where
  | dir : Entry
  | file : String → Entry
deriving DecidableEq

/-- One constructor per `logging.info` / `logging.error` call in
`setup_project.py`, carrying the interpolated name or path where the message
has one. -/
inductive LogEvent where
  | validName : String → LogEvent
  | invalidName : String → LogEvent
  | pythonInstalled : LogEvent
  | pythonMissing : LogEvent
  | invalidYesNo : LogEvent
  | tooManyInvalid : LogEvent
  | usingExisting : String → LogEvent
  | notUsingExisting : LogEvent
  | folderCreated : String → LogEvent
  | folderCreateFailed : String → LogEvent
  | pipfileCreated : LogEvent
  | pipfileNotOverwritten : LogEvent
  | gitignoreCreated : LogEvent
  | srcCreated : String → LogEvent
  | srcExists : String → LogEvent
  | testsCreated : String → LogEvent
  | testsExists : String → LogEvent
  | subdirsFailed : String → LogEvent
  | proceedUsing : String → LogEvent
  | cancelled : LogEvent
deriving DecidableEq

/-- How a run of (part of) the script can abort: `sys.exit code`, or the
uncaught `AttributeError` raised on line 84 of the source (calling `.lower()`
on a `bool`).  An uncaught exception makes the Python process exit with
status 1. -/
inductive PyErr where
  | exit : Nat → PyErr
  | attributeError : PyErr
deriving DecidableEq

/-- The world the script acts on: filesystem (path-to-entry association list,
first binding wins), stdin modelled as an infinite stream of lines with a read
cursor `pos`, an oracle `mkdirErr` telling at which paths `os.makedirs` raises
`OSError`, the outcome of the interpreter presence check, and the log. -/
structure World where
  fs : List (String × Entry)
  stdin : Nat → String
  pos : Nat
  mkdirErr : String → Bool
  interpreterOk : Bool
  log : List LogEvent

/-- Outcome of running a piece of the script: either a value together with the
updated world, or an abort together with the world at abort time. -/
abbrev PyResult (α : Type) := Except (PyErr × World) (α × World)

/-- Append a log event. -/
def logE (w : World) (e : LogEvent) : World :=
  { w with log := w.log ++ [e] }

/-- Model of os.path.exists: bare existence of any entry (file or directory) at the path. -/
def pathExists (w : World) (p : String) : Bool :=
  (List.lookup p w.fs).isSome

/-- Update an association-list filesystem: replace the first binding of `p`,
or append a fresh binding at the end. -/
def setEntry (fs : List (String × Entry)) (p : String) (e : Entry) : List (String × Entry) :=
  match fs with
  | [] => [(p, e)]
  | (q, d) :: rest => if q = p then (p, e) :: rest else (q, d) :: setEntry rest p e

/-- Model of a successful os.makedirs call: a directory appears at `p`. -/
def mkdirFs (w : World) (p : String) : World :=
  { w with fs := setEntry w.fs p Entry.dir }

/-- Model of opening `p` in write mode and writing `c`: the file at `p` holds
exactly `c` afterwards (full-content overwrite). -/
def writeFileFs (w : World) (p : String) (c : String) : World :=
  { w with fs := setEntry w.fs p (Entry.file c) }

/-- Model of input(): the next stdin line, advancing the cursor. -/
def readLine (w : World) : String × World :=
  (w.stdin w.pos, { w with pos := w.pos + 1 })

/-- Model of os.path.join for the simple relative components the script uses. -/
def pathJoin (a b : String) : String :=
  a ++ "/" ++ b

/-- Characters removed by the Python method str.strip (ASCII whitespace). -/
def isPySpace (c : Char) : Bool :=
  c = ' ' || c = '\t' || c = '\n' || c = '\x0b' || c = '\x0c' || c = '\r'

/-- Model of str.strip: drop leading and trailing whitespace. -/
def pyStrip (s : String) : String :=
  String.mk (((s.data.dropWhile isPySpace).reverse.dropWhile isPySpace).reverse)

/-- Model of str.lower on one character, over ASCII. -/
def pyLowerChar (c : Char) : Char :=
  if 'A' ≤ c && c ≤ 'Z' then Char.ofNat (c.toNat + 32) else c

/-- Model of str.lower, over ASCII. -/
def pyLower (s : String) : String :=
  String.mk (s.data.map pyLowerChar)

/-- The `\w` class of the pattern on line 11, modelled over the ASCII range
(letter, digit or underscore; Python additionally matches non-ASCII word
characters, which no claim needs). -/
def wordChar (c : Char) : Bool :=
  c.isAlphanum || c = '_'

/-- A character of the class `[\w\- ]` of the pattern on line 11. -/
def classChar (c : Char) : Bool :=
  wordChar c || c = '-' || c = ' '

/-- Decision of the re.match call on line 12, pattern `^[\w\- ]+$`.  With
Python re, `$` matches at the end of the string or just before one newline at
the end of the string, so `s` matches iff `s`, after removing at most one
trailing newline, is a non-empty run of class characters. -/
def reMatchFolderName (s : String) : Bool :=
  let cs := s.data
  let body := if cs.getLast? = some '\n' then cs.dropLast else cs
  !body.isEmpty && body.all classChar

/-- Filesystem component of the world a run ended in (abort included). -/
def resultFs {α : Type} : PyResult α → List (String × Entry)
  | Except.ok (_, w) => w.fs
  | Except.error (_, w) => w.fs

/-- Stdin cursor of the world a run ended in. -/
def resultPos {α : Type} : PyResult α → Nat
  | Except.ok (_, w) => w.pos
  | Except.error (_, w) => w.pos

/-- Log of the world a run ended in. -/
def resultLog {α : Type} : PyResult α → List LogEvent
  | Except.ok (_, w) => w.log
  | Except.error (_, w) => w.log

/-- The world a run ended in. -/
def resultWorld {α : Type} : PyResult α → World
  | Except.ok (_, w) => w
  | Except.error (_, w) => w

/-- Whether the run returned normally (no `sys.exit`, no uncaught exception). -/
def returnedNormally {α : Type} : PyResult α → Bool
  | Except.ok _ => true
  | Except.error _ => false

/-- The value a normal return produced. -/
def retValue {α : Type} : PyResult α → Option α
  | Except.ok (v, _) => some v
  | Except.error _ => none

/-- Process exit status when the run is the whole of `main`: 0 on normal
return, `n` on `sys.exit n`, and 1 on an uncaught exception. -/
def processExit {α : Type} : PyResult α → Nat
  | Except.ok _ => 0
  | Except.error (PyErr.exit n, _) => n
  | Except.error (PyErr.attributeError, _) => 1

/-- Whether the run aborted with the uncaught `AttributeError`. -/
def raisedAttributeError {α : Type} : PyResult α → Bool
  | Except.error (PyErr.attributeError, _) => true
  | _ => false

/-- Source lines 10-16.  `verify_folder_name`: log and return if the name
matches the pattern, else log an error and `sys.exit(1)`. -/
def verify_folder_name (w : World) (folder_name : String) : PyResult Unit :=
  if reMatchFolderName folder_name then
    Except.ok ((), logE w (LogEvent.validName folder_name))
  else
    Except.error (PyErr.exit 1, logE w (LogEvent.invalidName folder_name))

/-- Source lines 18-29.  `check_python3_installed`: the subprocess boundary is
an oracle bit; both failure modes of the source (non-zero return code, and
`FileNotFoundError`) log an error and `sys.exit(1)`. -/
def check_python3_installed (w : World) : PyResult Unit :=
  if w.interpreterOk then
    Except.ok ((), logE w LogEvent.pythonInstalled)
  else
    Except.error (PyErr.exit 1, logE w LogEvent.pythonMissing)

/-- Source lines 32-41, the `for _ in range(retry_limit)` loop of
`get_yes_no_input`, by recursion on the remaining iterations: read a line,
strip and lowercase it, return on yes/y or no/n, log and retry otherwise;
after the loop, log an error and `sys.exit(1)`. -/
def yesNoLoop (w : World) : Nat → PyResult Bool
  | 0 => Except.error (PyErr.exit 1, logE w LogEvent.tooManyInvalid)
  | Nat.succ n =>
    let r := readLine w
    let response := pyLower (pyStrip r.1)
    if response = "yes" || response = "y" then Except.ok (true, r.2)
    else if response = "no" || response = "n" then Except.ok (false, r.2)
    else yesNoLoop (logE r.2 LogEvent.invalidYesNo) n

/-- Source lines 31-41.  `get_yes_no_input(prompt, retry_limit=3)`; the prompt
only goes to stdout, so it does not appear in the model; both call sites use
the default `retry_limit = 3`. -/
def get_yes_no_input (w : World) (retry_limit : Nat) : PyResult Bool :=
  yesNoLoop w retry_limit

/-- Source lines 43-59.  `manage_folder`: on an existing path ask to reuse; on
a missing path try `os.makedirs`, catching `OSError` into a logged `False`. -/
def manage_folder (w : World) (folder_name : String) : PyResult Bool :=
  if pathExists w folder_name then
    match get_yes_no_input w 3 with
    | Except.error e => Except.error e
    | Except.ok (use_existing, w1) =>
      if use_existing then
        Except.ok (true, logE w1 (LogEvent.usingExisting folder_name))
      else
        Except.ok (false, logE w1 LogEvent.notUsingExisting)
  else
    if w.mkdirErr folder_name then
      Except.ok (false, logE w (LogEvent.folderCreateFailed folder_name))
    else
      Except.ok (true, logE (mkdirFs w folder_name) (LogEvent.folderCreated folder_name))

/-- Source lines 81-89.  `check_and_overwrite_file`: when the path exists it
asks the yes/no question, but line 84 then evaluates `response.lower()` where
`response` is the `bool` returned by `get_yes_no_input`; a Python `bool` has
no `lower` method, so this raises an uncaught `AttributeError` whatever the
answer was, before either branch (the `return True` on line 85 and the logged
decline on lines 87-88) can run.  When the path does not exist it returns
`True` without asking. -/
def check_and_overwrite_file (w : World) (file_path : String) : PyResult Bool :=
  if pathExists w file_path then
    match get_yes_no_input w 3 with
    | Except.error e => Except.error e
    | Except.ok (_response, w1) =>
      Except.error (PyErr.attributeError, w1)
  else
    Except.ok (true, w)

/-- Source line 62: the hardcoded Pipfile template. -/
def pipfile_content : String :=
  "# [[source]]\n# url = \"https://pypi.org/simple\"\n# verify_ssl = true\n# name = \"pypi\"\n\n# [packages]\n# db-dtypes = \"*\"\n\n# [dev-packages]\n# pytest = \"*\"\n# mypy = \"*\"\n# pandas-stubs = \"*\"\n\n# [requires]\n# python_version = \"3.11\""

/-- Source line 74: the hardcoded .gitignore template. -/
def gitignore_content : String :=
  "# Byte-compiled / optimized / DLL files\n__pycache__/\n*.py[cod]\n*$py.class\n\n# C extensions\n*.so\n\n# Distribution / packaging\n.Python\nbuild/\ndist/\ndownloads/\neggs/\nlib/\nlib64/\nparts/\nsdist/\nvar/\nwheels/\npip-wheel-metadata/\nshare/python-wheels/\n*.egg-info/\n.installed.cfg\n*.egg\nMANIFEST\n\n# PyInstaller\n*.manifest\n*.spec\n\n# Installer logs\npip-log.txt\npip-delete-this-directory.txt\n\n# Unit test / coverage reports\nhtmlcov/\n.tox/\n.nox/\n.coverage\n.coverage.*\n.cache\nnosetests.xml\ncoverage.xml\n*.cover\n*.py,cover\n.hypothesis/\n.pytest_cache/\n\n# Translations\n*.mo\n*.pot\n\n# Django stuff:\n*.log\nlocal_settings.py\ndb.sqlite3\ndb.sqlite3-journal\n\n# Flask stuff:\ninstance/\n.webassets-cache\n\n# Scrapy stuff:\n.scrapy\n\n# Sphinx documentation\ndocs/_build/\n\n# PyBuilder\ntarget/\n\n# Jupyter Notebook\n.ipynb_checkpoints\n\n# IPython\nprofile_default/\nipython_config.py\n\n# pyenv\n.python-version\n\n# pipenv\n#Pipfile.lock\n\n# PEP 582; used by e.g. github.com/David-OConnor/pyflow\n__pypackages__/\n\n# Celery stuff\ncelerybeat-schedule\ncelerybeat.pid\n\n# SageMath parsed files\n*.sage.py\n\n# Environments\n.env\n.venv\nenv/\nvenv/\nENV/\nenv.bak/\nvenv.bak/\n\n# Spyder project settings\n.spyderproject\n.spyproject\n\n# Rope project settings\n.ropeproject\n\n# mkdocs documentation\n/site\n\n# mypy\n.mypy_cache/\n.dmypy.json\ndmypy.json\n\n# Pyre type checker\n.pyre/\n"

/-- Source lines 61-70.  `create_pipfile`: when `check_and_overwrite_file`
returns `True` the Pipfile is (re)written with the fixed template content and
the creation is logged; on `False` only a log line is emitted. -/
def create_pipfile (w : World) (folder_name : String) : PyResult Unit :=
  let pipfile_path := pathJoin folder_name "Pipfile"
  match check_and_overwrite_file w pipfile_path with
  | Except.error e => Except.error e
  | Except.ok (true, w1) =>
    Except.ok ((), logE (writeFileFs w1 pipfile_path pipfile_content) LogEvent.pipfileCreated)
  | Except.ok (false, w1) =>
    Except.ok ((), logE w1 LogEvent.pipfileNotOverwritten)

/-- Source lines 72-79.  `create_gitignore`: like `create_pipfile`, except
that a `False` answer produces no log line (the source has no `else`). -/
def create_gitignore (w : World) (folder_name : String) : PyResult Unit :=
  let gitignore_path := pathJoin folder_name ".gitignore"
  match check_and_overwrite_file w gitignore_path with
  | Except.error e => Except.error e
  | Except.ok (true, w1) =>
    Except.ok ((), logE (writeFileFs w1 gitignore_path gitignore_content) LogEvent.gitignoreCreated)
  | Except.ok (false, w1) =>
    Except.ok ((), w1)

/-- Source lines 91-116.  `create_project_structure`: ensure `src` and then
`tests` exist under the folder, logging created/exists per directory; one
`try` wraps both, and an `OSError` from either `os.makedirs` logs an error
and does `sys.exit(1)`. -/
def create_project_structure (w : World) (folder_name : String) : PyResult Unit :=
  let src_path := pathJoin folder_name "src"
  let tests_path := pathJoin folder_name "tests"
  let step1 : PyResult Unit :=
    if pathExists w src_path then
      Except.ok ((), logE w (LogEvent.srcExists src_path))
    else if w.mkdirErr src_path then
      Except.error (PyErr.exit 1, logE w (LogEvent.subdirsFailed folder_name))
    else
      Except.ok ((), logE (mkdirFs w src_path) (LogEvent.srcCreated src_path))
  match step1 with
  | Except.error e => Except.error e
  | Except.ok (_, w1) =>
    if pathExists w1 tests_path then
      Except.ok ((), logE w1 (LogEvent.testsExists tests_path))
    else if w1.mkdirErr tests_path then
      Except.error (PyErr.exit 1, logE w1 (LogEvent.subdirsFailed folder_name))
    else
      Except.ok ((), logE (mkdirFs w1 tests_path) (LogEvent.testsCreated tests_path))

/-- Source lines 118-132.  `main`: interpreter check, read and strip the
project name, validate it, manage the folder; on success write both templates
and create the subdirectories, otherwise log the cancellation. -/
def main (w : World) : PyResult Unit :=
  match check_python3_installed w with
  | Except.error e => Except.error e
  | Except.ok (_, w1) =>
    let r := readLine w1
    let folder_name := pyStrip r.1
    match verify_folder_name r.2 folder_name with
    | Except.error e => Except.error e
    | Except.ok (_, w2) =>
      match manage_folder w2 folder_name with
      | Except.error e => Except.error e
      | Except.ok (false, w3) =>
        Except.ok ((), logE w3 LogEvent.cancelled)
      | Except.ok (true, w3) =>
        let w4 := logE w3 (LogEvent.proceedUsing folder_name)
        match create_pipfile w4 folder_name with
        | Except.error e => Except.error e
        | Except.ok (_, w5) =>
          match create_gitignore w5 folder_name with
          | Except.error e => Except.error e
          | Except.ok (_, w6) => create_project_structure w6 folder_name

/-- A world with the given filesystem and stdin, cursor at 0, no `makedirs`
failures, interpreter present, empty log: the baseline for concrete runs. -/
def mkWorld (fs : List (String × Entry)) (stdin : Nat → String) : World :=
  { fs := fs, stdin := stdin, pos := 0, mkdirErr := fun _ => false,
    interpreterOk := true, log := [] }

/-- A normalized stdin line the yes/no loop recognizes (either answer). -/
def yesNoRecognized (s : String) : Bool :=
  let r := pyLower (pyStrip s)
  r = "yes" || r = "y" || r = "no" || r = "n"

/-- A stdin line the yes/no loop reads as consent. -/
def saysYes (s : String) : Bool :=
  pyLower (pyStrip s) = "yes" || pyLower (pyStrip s) = "y"

/-- A stdin line the yes/no loop reads as refusal. -/
def saysNo (s : String) : Bool :=
  pyLower (pyStrip s) = "no" || pyLower (pyStrip s) = "n"

/-- Allowed name characters in the words of the specification: letters,
digits, underscore, hyphen, space. -/
def specAllowedChar (c : Char) : Bool :=
  c.isAlpha || c.isDigit || c = '_' || c = '-' || c = ' '

theorem classChar_eq_specAllowedChar (c : Char) : classChar c = specAllowedChar c := by
  simp [classChar, wordChar, specAllowedChar, Char.isAlphanum, Bool.or_assoc]

theorem setEntry_cons (q : String) (d : Entry) (tl : List (String × Entry))
    (p : String) (e : Entry) :
    setEntry ((q, d) :: tl) p e =
      if q = p then (p, e) :: tl else (q, d) :: setEntry tl p e := rfl

theorem lookup_setEntry_self (fs : List (String × Entry)) (p : String) (e : Entry) :
    List.lookup p (setEntry fs p e) = some e := by
  induction fs with
  | nil => simp [setEntry]
  | cons hd tl ih =>
    obtain ⟨q, d⟩ := hd
    by_cases h : q = p
    · subst h
      simp [setEntry_cons]
    · rw [setEntry_cons, if_neg h, List.lookup_cons, beq_false_of_ne (Ne.symm h)]
      exact ih

theorem lookup_setEntry_ne (fs : List (String × Entry)) (p q : String) (e : Entry)
    (h : q ≠ p) : List.lookup q (setEntry fs p e) = List.lookup q fs := by
  induction fs with
  | nil =>
    show List.lookup q [(p, e)] = List.lookup q []
    rw [List.lookup_cons, beq_false_of_ne h]
  | cons hd tl ih =>
    obtain ⟨a, d⟩ := hd
    by_cases ha : a = p
    · subst ha
      rw [setEntry_cons, if_pos rfl, List.lookup_cons, List.lookup_cons,
        beq_false_of_ne h]
    · rw [setEntry_cons, if_neg ha, List.lookup_cons, List.lookup_cons, ih]

theorem pathJoin_ne_self (n s : String) : pathJoin n s ≠ n := by
  intro he
  have h1 := congrArg (fun t => t.data.length) he
  simp [pathJoin, String.data_append] at h1

theorem pathJoin_ne_of_ne (n a b : String) (h : a ≠ b) : pathJoin n a ≠ pathJoin n b := by
  intro he
  apply h
  apply String.ext
  have hd := congrArg String.data he
  simp only [pathJoin, String.data_append, List.append_assoc] at hd
  exact List.append_cancel_left (List.append_cancel_left hd)

theorem dropWhile_eq_self_of_all (l : List Char) (h : ∀ c ∈ l, isPySpace c = false) :
    l.dropWhile isPySpace = l := by
  cases l with
  | nil => rfl
  | cons a t =>
    rw [List.dropWhile_cons]
    simp [h a (by simp)]

theorem pyStrip_eq_self (r : String) (h : ∀ c ∈ r.data, isPySpace c = false) :
    pyStrip r = r := by
  apply String.ext
  show ((r.data.dropWhile isPySpace).reverse.dropWhile isPySpace).reverse = r.data
  rw [dropWhile_eq_self_of_all r.data h,
    dropWhile_eq_self_of_all r.data.reverse
      (fun c hc => h c (List.mem_reverse.mp hc)),
    List.reverse_reverse]

theorem pyLowerChar_of_space (c : Char) (h : isPySpace c = true) : pyLowerChar c = c := by
  simp only [isPySpace, Bool.or_eq_true, decide_eq_true_eq] at h
  rcases h with ((((h | h) | h) | h) | h) | h <;> subst h <;> decide

theorem isPySpace_false_of_pyLowerChar (c t : Char) (hl : pyLowerChar c = t)
    (ht : isPySpace t = false) : isPySpace c = false := by
  by_cases h : isPySpace c = true
  · rw [pyLowerChar_of_space c h] at hl
    subst hl
    rw [h] at ht
    cases ht
  · simpa using h

theorem pyStrip_eq_self_of_pyLower (r t : String) (h : pyLower r = t)
    (ht : ∀ c ∈ t.data, isPySpace c = false) : pyStrip r = r := by
  apply pyStrip_eq_self
  intro c hc
  have hm : pyLowerChar c ∈ t.data := by
    rw [← h]
    exact List.mem_map_of_mem pyLowerChar hc
  exact isPySpace_false_of_pyLowerChar c (pyLowerChar c) rfl (ht (pyLowerChar c) hm)

theorem reMatch_eq (s : String) :
    reMatchFolderName s =
      (!(if s.data.getLast? = some '\n' then s.data.dropLast else s.data).isEmpty &&
        (if s.data.getLast? = some '\n' then s.data.dropLast else s.data).all classChar) := rfl

theorem reMatch_iff (s : String) :
    reMatchFolderName s = true ↔
      ∃ body tail, s.data = body ++ tail ∧ body ≠ [] ∧
        (∀ c ∈ body, specAllowedChar c = true) ∧ (tail = [] ∨ tail = ['\n']) := by
  rw [reMatch_eq]
  constructor
  · intro h
    by_cases hl : s.data.getLast? = some '\n'
    · obtain ⟨ys, hys⟩ := List.getLast?_eq_some_iff.mp hl
      rw [if_pos hl, hys, List.dropLast_concat] at h
      simp only [Bool.and_eq_true, List.all_eq_true, Bool.not_eq_true',
        List.isEmpty_eq_false] at h
      refine ⟨ys, ['\n'], hys, h.1, ?_, Or.inr rfl⟩
      intro c hc
      rw [← classChar_eq_specAllowedChar]
      exact h.2 c hc
    · rw [if_neg hl] at h
      simp only [Bool.and_eq_true, List.all_eq_true, Bool.not_eq_true',
        List.isEmpty_eq_false] at h
      refine ⟨s.data, [], (List.append_nil s.data).symm, h.1, ?_, Or.inl rfl⟩
      intro c hc
      rw [← classChar_eq_specAllowedChar]
      exact h.2 c hc
  · rintro ⟨body, tail, hs, hne, hall, htail⟩
    have hall2 : ∀ c ∈ body, classChar c = true := fun c hc => by
      rw [classChar_eq_specAllowedChar]
      exact hall c hc
    rcases htail with ht | ht
    · subst ht
      rw [List.append_nil] at hs
      have hlast : ¬s.data.getLast? = some '\n' := by
        intro hg
        have hmem : '\n' ∈ s.data := List.mem_of_getLast?_eq_some hg
        rw [hs] at hmem
        have hx := hall2 '\n' hmem
        simp [classChar, wordChar] at hx
      rw [if_neg hlast, hs]
      simp only [Bool.and_eq_true, List.all_eq_true, Bool.not_eq_true',
        List.isEmpty_eq_false]
      exact ⟨hne, hall2⟩
    · subst ht
      have hlast : s.data.getLast? = some '\n' := by
        rw [hs]
        exact List.getLast?_concat body
      rw [if_pos hlast, hs, List.dropLast_concat]
      simp only [Bool.and_eq_true, List.all_eq_true, Bool.not_eq_true',
        List.isEmpty_eq_false]
      exact ⟨hne, hall2⟩

/-- C1: the claim is violated by the code.  Whenever the target file already
exists, the File Writer does ask the overwrite question (one stdin line is
consumed), but line 84 of the source then calls .lower() on the Bool that
`get_yes_no_input` returned, raising an uncaught AttributeError before either
branch can run: on consent the file is NOT rewritten and the run aborts, and
on refusal the run aborts as well (the file content is unchanged in both
cases only because nothing after the crash executes).  Evaluated at the
failing inputs: folder "proj" with an existing Pipfile and a consenting user,
and an existing .gitignore with a refusing user. -/
theorem C1_overwrite_prompt_crashes :
    (raisedAttributeError (create_pipfile
        (mkWorld [("proj", Entry.dir), ("proj/Pipfile", Entry.file "old")]
          (fun _ => "yes")) "proj") = true ∧
      List.lookup "proj/Pipfile" (resultFs (create_pipfile
        (mkWorld [("proj", Entry.dir), ("proj/Pipfile", Entry.file "old")]
          (fun _ => "yes")) "proj")) = some (Entry.file "old") ∧
      resultPos (create_pipfile
        (mkWorld [("proj", Entry.dir), ("proj/Pipfile", Entry.file "old")]
          (fun _ => "yes")) "proj") = 1) ∧
    (raisedAttributeError (create_gitignore
        (mkWorld [("proj", Entry.dir), ("proj/.gitignore", Entry.file "keep")]
          (fun _ => "no")) "proj") = true ∧
      List.lookup "proj/.gitignore" (resultFs (create_gitignore
        (mkWorld [("proj", Entry.dir), ("proj/.gitignore", Entry.file "keep")]
          (fun _ => "no")) "proj")) = some (Entry.file "keep")) :=
  ⟨⟨by decide, by decide, by decide⟩, by decide, by decide⟩

/-- C2 (amended): the validator accepts exactly the strings that are a
non-empty run of letters, digits, underscore, hyphen, space characters,
optionally followed by one single trailing newline (the Python regex anchor
`$` also matches just before a final newline); on every other string it logs
an error and the process exits with status 1. -/
theorem C2_validator_characterization (w : World) (s : String) :
    (returnedNormally (verify_folder_name w s) = true ↔
      ∃ body tail, s.data = body ++ tail ∧ body ≠ [] ∧
        (∀ c ∈ body, specAllowedChar c = true) ∧ (tail = [] ∨ tail = ['\n'])) ∧
    (returnedNormally (verify_folder_name w s) = false →
      verify_folder_name w s =
        Except.error (PyErr.exit 1, logE w (LogEvent.invalidName s))) := by
  constructor
  · rw [← reMatch_iff]
    unfold verify_folder_name
    by_cases h : reMatchFolderName s = true
    · simp [h, returnedNormally]
    · simp [h, returnedNormally]
  · intro hr
    unfold verify_folder_name at hr ⊢
    by_cases h : reMatchFolderName s = true
    · simp [h, returnedNormally] at hr
    · simp [h]

/-- Witness for C2: the concrete name "ab-1 x" is made of allowed characters
only and the validator accepts it. -/
theorem C2_validator_characterization_witness :
    returnedNormally (verify_folder_name (mkWorld [] (fun _ => "")) "ab-1 x") = true :=
  (C2_validator_characterization (mkWorld [] (fun _ => "")) "ab-1 x").1.mpr
    ⟨"ab-1 x".data, [], by decide, by decide, by decide, Or.inl rfl⟩

/-- Counterexample to C2 as stated: the string made of "a" followed by a
newline contains a character that is neither letter, digit, underscore,
hyphen nor space, yet the validator returns normally instead of reporting an
error and exiting. -/
theorem C2_counterexample :
    ('\n' ∈ "a\n".data ∧ specAllowedChar '\n' = false) ∧
    returnedNormally (verify_folder_name (mkWorld [] (fun _ => "")) "a\n") = true :=
  ⟨⟨by decide, by decide⟩, by decide⟩

/-- C5: the claim is violated by the code.  On a run that reuses an existing
folder "proj" already containing a Pipfile, the overwrite prompt is reached
and, whatever the answer (here the user would decline), line 84 raises the
uncaught AttributeError, so the process exits with status 1 where the claim
requires the user-declined overwrite path to exit with status 0. -/
theorem C5_declined_overwrite_exit_status :
    processExit (main (mkWorld [("proj", Entry.dir), ("proj/Pipfile", Entry.file "old")]
      (fun n => if n = 0 then "proj" else if n = 1 then "yes" else "no"))) = 1 ∧
    raisedAttributeError (main (mkWorld [("proj", Entry.dir), ("proj/Pipfile", Entry.file "old")]
      (fun n => if n = 0 then "proj" else if n = 1 then "yes" else "no"))) = true :=
  ⟨by decide, by decide⟩

/-- C4: behaviour of manage_folder on a validated name: existing path and a
consenting answer give True; existing path and a refusing answer give False;
missing path with a succeeding makedirs creates the directory and gives True;
missing path with makedirs raising OSError logs the failure and returns False
instead of terminating. -/
theorem C4_manage_folder (w : World) (n : String) :
    (pathExists w n = true → saysYes (w.stdin w.pos) = true →
      manage_folder w n =
        Except.ok (true, logE { w with pos := w.pos + 1 } (LogEvent.usingExisting n))) ∧
    (pathExists w n = true → saysNo (w.stdin w.pos) = true →
      manage_folder w n =
        Except.ok (false, logE { w with pos := w.pos + 1 } LogEvent.notUsingExisting)) ∧
    (pathExists w n = false → w.mkdirErr n = false →
      manage_folder w n =
        Except.ok (true, logE (mkdirFs w n) (LogEvent.folderCreated n)) ∧
      List.lookup n (resultFs (manage_folder w n)) = some Entry.dir) ∧
    (pathExists w n = false → w.mkdirErr n = true →
      manage_folder w n = Except.ok (false, logE w (LogEvent.folderCreateFailed n))) := by
  refine ⟨?_, ?_, ?_, ?_⟩
  · intro he hy
    rcases (by simpa [saysYes] using hy :
        pyLower (pyStrip (w.stdin w.pos)) = "yes" ∨ pyLower (pyStrip (w.stdin w.pos)) = "y")
      with h1 | h1 <;>
      simp [manage_folder, he, get_yes_no_input, yesNoLoop, readLine, h1]
  · intro he hn
    rcases (by simpa [saysNo] using hn :
        pyLower (pyStrip (w.stdin w.pos)) = "no" ∨ pyLower (pyStrip (w.stdin w.pos)) = "n")
      with h1 | h1 <;>
      simp [manage_folder, he, get_yes_no_input, yesNoLoop, readLine, h1]
  · intro he hm
    have h : manage_folder w n =
        Except.ok (true, logE (mkdirFs w n) (LogEvent.folderCreated n)) := by
      simp [manage_folder, he, hm]
    refine ⟨h, ?_⟩
    rw [h]
    simp [resultFs, logE, mkdirFs, lookup_setEntry_self]
  · intro he hm
    simp [manage_folder, he, hm]

/-- Witness for C4: all four branches at concrete worlds. -/
theorem C4_manage_folder_witness :
    retValue (manage_folder (mkWorld [("p", Entry.dir)] (fun _ => "yes")) "p") = some true ∧
    retValue (manage_folder (mkWorld [("p", Entry.dir)] (fun _ => "no")) "p") = some false ∧
    retValue (manage_folder (mkWorld [] (fun _ => "")) "p") = some true ∧
    retValue (manage_folder
      ({ fs := [], stdin := (fun _ => ""), pos := 0, mkdirErr := (fun _ => true),
         interpreterOk := true, log := [] } : World) "p") = some false := by
  refine ⟨?_, ?_, ?_, ?_⟩
  · rw [(C4_manage_folder (mkWorld [("p", Entry.dir)] (fun _ => "yes")) "p").1
      (by decide) (by decide)]
    rfl
  · rw [(C4_manage_folder (mkWorld [("p", Entry.dir)] (fun _ => "no")) "p").2.1
      (by decide) (by decide)]
    rfl
  · rw [((C4_manage_folder (mkWorld [] (fun _ => "")) "p").2.2.1
      (by decide) (by decide)).1]
    rfl
  · rw [(C4_manage_folder
      ({ fs := [], stdin := (fun _ => ""), pos := 0, mkdirErr := (fun _ => true),
         interpreterOk := true, log := [] } : World) "p").2.2.2
      (by decide) (by decide)]
    rfl

/-- C6: when the target file is absent, create_pipfile and create_gitignore
write it without prompting (the stdin cursor does not move), and the written
entry is exactly the fixed template content: a full-content write. -/
theorem C6_absent_files_written (w : World) (n : String)
    (h1 : List.lookup (pathJoin n "Pipfile") w.fs = none)
    (h2 : List.lookup (pathJoin n ".gitignore") w.fs = none) :
    create_pipfile w n =
      Except.ok ((), logE (writeFileFs w (pathJoin n "Pipfile") pipfile_content)
        LogEvent.pipfileCreated) ∧
    create_gitignore w n =
      Except.ok ((), logE (writeFileFs w (pathJoin n ".gitignore") gitignore_content)
        LogEvent.gitignoreCreated) ∧
    List.lookup (pathJoin n "Pipfile") (resultFs (create_pipfile w n)) =
      some (Entry.file pipfile_content) ∧
    List.lookup (pathJoin n ".gitignore") (resultFs (create_gitignore w n)) =
      some (Entry.file gitignore_content) ∧
    resultPos (create_pipfile w n) = w.pos ∧
    resultPos (create_gitignore w n) = w.pos := by
  have e1 : pathExists w (pathJoin n "Pipfile") = false := by
    simp [pathExists, h1]
  have e2 : pathExists w (pathJoin n ".gitignore") = false := by
    simp [pathExists, h2]
  refine ⟨?_, ?_, ?_, ?_, ?_, ?_⟩ <;>
    simp [create_pipfile, create_gitignore, check_and_overwrite_file, e1, e2,
      resultFs, resultPos, writeFileFs, logE, lookup_setEntry_self]

/-- Witness for C6: a world holding only the project folder. -/
theorem C6_absent_files_written_witness :
    List.lookup (pathJoin "p" "Pipfile")
      (resultFs (create_pipfile (mkWorld [("p", Entry.dir)] (fun _ => "")) "p")) =
      some (Entry.file pipfile_content) ∧
    List.lookup (pathJoin "p" ".gitignore")
      (resultFs (create_gitignore (mkWorld [("p", Entry.dir)] (fun _ => "")) "p")) =
      some (Entry.file gitignore_content) :=
  ⟨(C6_absent_files_written (mkWorld [("p", Entry.dir)] (fun _ => "")) "p"
      (by decide) (by decide)).2.2.1,
   (C6_absent_files_written (mkWorld [("p", Entry.dir)] (fun _ => "")) "p"
      (by decide) (by decide)).2.2.2.1⟩

/-- C7: when the entered (stripped) name fails validation, the process exits
with status 1 and the filesystem is exactly what it was: no folder, file or
subdirectory has been created.  (If the interpreter check fails even earlier,
the run also exits 1 with the filesystem untouched.) -/
theorem C7_invalid_name_no_mutation (w : World)
    (h : reMatchFolderName (pyStrip (w.stdin w.pos)) = false) :
    processExit (main w) = 1 ∧ resultFs (main w) = w.fs := by
  by_cases hi : w.interpreterOk = true
  · constructor <;>
      simp [main, check_python3_installed, hi, readLine, verify_folder_name, h,
        logE, processExit, resultFs]
  · rw [Bool.not_eq_true] at hi
    constructor <;>
      simp [main, check_python3_installed, hi, processExit, resultFs, logE]

/-- Witness for C7: the spec example "bad/name". -/
theorem C7_invalid_name_no_mutation_witness :
    processExit (main (mkWorld [] (fun _ => "bad/name"))) = 1 ∧
    resultFs (main (mkWorld [] (fun _ => "bad/name"))) = [] :=
  ⟨(C7_invalid_name_no_mutation (mkWorld [] (fun _ => "bad/name")) (by decide)).1,
   (C7_invalid_name_no_mutation (mkWorld [] (fun _ => "bad/name")) (by decide)).2⟩

/-- C10: manage_folder tests bare path existence.  With a regular file (not a
directory) recorded at the project name and a consenting first answer, the
reuse question is asked (one stdin line is consumed), True is returned, and
no directory is created: the filesystem is unchanged. -/
theorem C10_regular_file_treated_as_folder (w : World) (n c : String)
    (hf : List.lookup n w.fs = some (Entry.file c))
    (hy : saysYes (w.stdin w.pos) = true) :
    retValue (manage_folder w n) = some true ∧
    resultFs (manage_folder w n) = w.fs ∧
    resultPos (manage_folder w n) = w.pos + 1 := by
  have he : pathExists w n = true := by
    simp [pathExists, hf]
  rcases (by simpa [saysYes] using hy :
      pyLower (pyStrip (w.stdin w.pos)) = "yes" ∨ pyLower (pyStrip (w.stdin w.pos)) = "y")
    with h1 | h1 <;>
    refine ⟨?_, ?_, ?_⟩ <;>
    simp [manage_folder, he, get_yes_no_input, yesNoLoop, readLine, h1,
      retValue, resultFs, resultPos, logE]

/-- Witness for C10: a regular file at the name "p" and the answer "y". -/
theorem C10_regular_file_treated_as_folder_witness :
    retValue (manage_folder (mkWorld [("p", Entry.file "data")] (fun _ => "y")) "p") =
      some true ∧
    resultFs (manage_folder (mkWorld [("p", Entry.file "data")] (fun _ => "y")) "p") =
      [("p", Entry.file "data")] :=
  ⟨(C10_regular_file_treated_as_folder (mkWorld [("p", Entry.file "data")] (fun _ => "y"))
      "p" "data" (by decide) (by decide)).1,
   (C10_regular_file_treated_as_folder (mkWorld [("p", Entry.file "data")] (fun _ => "y"))
      "p" "data" (by decide) (by decide)).2.1⟩

theorem pyLower_pyStrip_of_pyLower (r t : String) (h : pyLower r = t)
    (ht : ∀ c ∈ t.data, isPySpace c = false) : pyLower (pyStrip r) = t := by
  rw [pyStrip_eq_self_of_pyLower r t h ht, h]

theorem yesNoLoop_step_unrecognized (w : World) (n : Nat)
    (h : yesNoRecognized (w.stdin w.pos) = false) :
    yesNoLoop w (n + 1) =
      yesNoLoop (logE { w with pos := w.pos + 1 } LogEvent.invalidYesNo) n := by
  simp only [yesNoRecognized, Bool.or_eq_false_iff, decide_eq_false_iff_not] at h
  simp [yesNoLoop, readLine, h.1.1.1, h.1.1.2, h.1.2, h.2]

/-- C3: with the default retry limit 3, the yes/no prompt returns true on a
first response that lowercases to yes or y, false on one that lowercases to
no or n, retries on unrecognized responses (two unrecognized answers followed
by a yes still give true, with three stdin lines consumed), and after three
consecutive unrecognized responses exits the process with status 1. -/
theorem C3_get_yes_no_input (w : World) :
    (pyLower (w.stdin w.pos) = "yes" ∨ pyLower (w.stdin w.pos) = "y" →
      get_yes_no_input w 3 = Except.ok (true, { w with pos := w.pos + 1 })) ∧
    (pyLower (w.stdin w.pos) = "no" ∨ pyLower (w.stdin w.pos) = "n" →
      get_yes_no_input w 3 = Except.ok (false, { w with pos := w.pos + 1 })) ∧
    (yesNoRecognized (w.stdin w.pos) = false →
     yesNoRecognized (w.stdin (w.pos + 1)) = false →
     pyLower (w.stdin (w.pos + 2)) = "yes" →
      retValue (get_yes_no_input w 3) = some true ∧
      resultPos (get_yes_no_input w 3) = w.pos + 3) ∧
    (yesNoRecognized (w.stdin w.pos) = false →
     yesNoRecognized (w.stdin (w.pos + 1)) = false →
     yesNoRecognized (w.stdin (w.pos + 2)) = false →
      processExit (get_yes_no_input w 3) = 1 ∧
      resultPos (get_yes_no_input w 3) = w.pos + 3) := by
  refine ⟨?_, ?_, ?_, ?_⟩
  · intro h
    rcases h with h | h <;>
      rw [get_yes_no_input] <;>
      simp [yesNoLoop, readLine, pyLower_pyStrip_of_pyLower _ _ h (by decide)]
  · intro h
    rcases h with h | h <;>
      rw [get_yes_no_input] <;>
      simp [yesNoLoop, readLine, pyLower_pyStrip_of_pyLower _ _ h (by decide)]
  · intro u1 u2 hy
    have s1 : get_yes_no_input w 3 =
        yesNoLoop (logE { w with pos := w.pos + 1 } LogEvent.invalidYesNo) 2 :=
      yesNoLoop_step_unrecognized w 2 u1
    have s2 : yesNoLoop (logE { w with pos := w.pos + 1 } LogEvent.invalidYesNo) 2 =
        yesNoLoop (logE { (logE { w with pos := w.pos + 1 } LogEvent.invalidYesNo) with
          pos := w.pos + 1 + 1 } LogEvent.invalidYesNo) 1 :=
      yesNoLoop_step_unrecognized _ 1 u2
    have e2 : w.pos + 1 + 1 = w.pos + 2 := by omega
    rw [s1, s2]
    have hl : pyLower (pyStrip (w.stdin (w.pos + 1 + 1))) = "yes" := by
      rw [e2]
      exact pyLower_pyStrip_of_pyLower _ _ hy (by decide)
    constructor <;>
      simp [yesNoLoop, readLine, logE, hl, retValue, resultPos]
  · intro u1 u2 u3
    have s1 : get_yes_no_input w 3 =
        yesNoLoop (logE { w with pos := w.pos + 1 } LogEvent.invalidYesNo) 2 :=
      yesNoLoop_step_unrecognized w 2 u1
    have s2 : yesNoLoop (logE { w with pos := w.pos + 1 } LogEvent.invalidYesNo) 2 =
        yesNoLoop (logE { (logE { w with pos := w.pos + 1 } LogEvent.invalidYesNo) with
          pos := w.pos + 1 + 1 } LogEvent.invalidYesNo) 1 :=
      yesNoLoop_step_unrecognized _ 1 u2
    have e2 : w.pos + 1 + 1 = w.pos + 2 := by omega
    have u3feed : yesNoRecognized (w.stdin (w.pos + 1 + 1)) = false := by
      rw [e2]
      exact u3
    have s3 : yesNoLoop (logE { (logE { w with pos := w.pos + 1 } LogEvent.invalidYesNo) with
          pos := w.pos + 1 + 1 } LogEvent.invalidYesNo) 1 =
        yesNoLoop (logE { (logE { (logE { w with pos := w.pos + 1 } LogEvent.invalidYesNo) with
          pos := w.pos + 1 + 1 } LogEvent.invalidYesNo) with
          pos := w.pos + 1 + 1 + 1 } LogEvent.invalidYesNo) 0 :=
      yesNoLoop_step_unrecognized _ 0 u3feed
    rw [s1, s2, s3]
    constructor <;> simp [yesNoLoop, processExit, resultPos, logE]

/-- Witness for C3: all four behaviours at concrete response streams. -/
theorem C3_get_yes_no_input_witness :
    retValue (get_yes_no_input (mkWorld [] (fun _ => "Y")) 3) = some true ∧
    retValue (get_yes_no_input (mkWorld [] (fun _ => "N")) 3) = some false ∧
    retValue (get_yes_no_input (mkWorld [] (fun n => if n ≤ 1 then "hm" else "YES")) 3) =
      some true ∧
    processExit (get_yes_no_input (mkWorld [] (fun _ => "hm")) 3) = 1 := by
  refine ⟨?_, ?_, ?_, ?_⟩
  · rw [(C3_get_yes_no_input (mkWorld [] (fun _ => "Y"))).1 (Or.inr (by decide))]
    rfl
  · rw [(C3_get_yes_no_input (mkWorld [] (fun _ => "N"))).2.1 (Or.inr (by decide))]
    rfl
  · exact ((C3_get_yes_no_input (mkWorld [] (fun n => if n ≤ 1 then "hm" else "YES"))).2.2.1
      (by decide) (by decide) (by decide)).1
  · exact ((C3_get_yes_no_input (mkWorld [] (fun _ => "hm"))).2.2.2
      (by decide) (by decide) (by decide)).1

theorem fs_logE (w : World) (e : LogEvent) : (logE w e).fs = w.fs := rfl

theorem log_logE (w : World) (e : LogEvent) : (logE w e).log = w.log ++ [e] := rfl

theorem pos_logE (w : World) (e : LogEvent) : (logE w e).pos = w.pos := rfl

theorem stdin_logE (w : World) (e : LogEvent) : (logE w e).stdin = w.stdin := rfl

theorem mkdirErr_logE (w : World) (e : LogEvent) : (logE w e).mkdirErr = w.mkdirErr := rfl

theorem fs_mkdirFs (w : World) (p : String) :
    (mkdirFs w p).fs = setEntry w.fs p Entry.dir := rfl

theorem log_mkdirFs (w : World) (p : String) : (mkdirFs w p).log = w.log := rfl

theorem pos_mkdirFs (w : World) (p : String) : (mkdirFs w p).pos = w.pos := rfl

theorem stdin_mkdirFs (w : World) (p : String) : (mkdirFs w p).stdin = w.stdin := rfl

theorem mkdirErr_mkdirFs (w : World) (p : String) :
    (mkdirFs w p).mkdirErr = w.mkdirErr := rfl

theorem fs_writeFileFs (w : World) (p c : String) :
    (writeFileFs w p c).fs = setEntry w.fs p (Entry.file c) := rfl

theorem log_writeFileFs (w : World) (p c : String) :
    (writeFileFs w p c).log = w.log := rfl

theorem pos_writeFileFs (w : World) (p c : String) :
    (writeFileFs w p c).pos = w.pos := rfl

theorem stdin_writeFileFs (w : World) (p c : String) :
    (writeFileFs w p c).stdin = w.stdin := rfl

theorem mkdirErr_writeFileFs (w : World) (p c : String) :
    (writeFileFs w p c).mkdirErr = w.mkdirErr := rfl

theorem pathExists_logE (w : World) (e : LogEvent) (p : String) :
    pathExists (logE w e) p = pathExists w p := rfl

theorem pathExists_mkdirFs_self (w : World) (p : String) :
    pathExists (mkdirFs w p) p = true := by
  simp [pathExists, mkdirFs, lookup_setEntry_self]

theorem pathExists_mkdirFs_ne (w : World) (p q : String) (h : q ≠ p) :
    pathExists (mkdirFs w p) q = pathExists w q := by
  simp [pathExists, mkdirFs, lookup_setEntry_ne _ _ _ _ h]

theorem pathExists_writeFileFs_self (w : World) (p c : String) :
    pathExists (writeFileFs w p c) p = true := by
  simp [pathExists, writeFileFs, lookup_setEntry_self]

theorem pathExists_writeFileFs_ne (w : World) (p c : String) (q : String)
    (h : q ≠ p) : pathExists (writeFileFs w p c) q = pathExists w q := by
  simp [pathExists, writeFileFs, lookup_setEntry_ne _ _ _ _ h]

/-- C8: with both makedirs calls succeeding, create_project_structure returns
normally; afterwards the src and tests subdirectories both exist; a directory
that already existed keeps its filesystem entry unchanged and is logged as
already existing, an absent one is logged as created; and running the
function a second time leaves the filesystem of the first run unchanged
(idempotence). -/
theorem C8_create_project_structure (w : World) (n : String)
    (h1 : w.mkdirErr (pathJoin n "src") = false)
    (h2 : w.mkdirErr (pathJoin n "tests") = false) :
    returnedNormally (create_project_structure w n) = true ∧
    pathExists (resultWorld (create_project_structure w n)) (pathJoin n "src") = true ∧
    pathExists (resultWorld (create_project_structure w n)) (pathJoin n "tests") = true ∧
    (pathExists w (pathJoin n "src") = true →
      List.lookup (pathJoin n "src") (resultFs (create_project_structure w n)) =
        List.lookup (pathJoin n "src") w.fs ∧
      LogEvent.srcExists (pathJoin n "src") ∈ resultLog (create_project_structure w n)) ∧
    (pathExists w (pathJoin n "src") = false →
      LogEvent.srcCreated (pathJoin n "src") ∈ resultLog (create_project_structure w n)) ∧
    (pathExists w (pathJoin n "tests") = true →
      List.lookup (pathJoin n "tests") (resultFs (create_project_structure w n)) =
        List.lookup (pathJoin n "tests") w.fs ∧
      LogEvent.testsExists (pathJoin n "tests") ∈ resultLog (create_project_structure w n)) ∧
    (pathExists w (pathJoin n "tests") = false →
      LogEvent.testsCreated (pathJoin n "tests") ∈ resultLog (create_project_structure w n)) ∧
    resultFs (create_project_structure (resultWorld (create_project_structure w n)) n) =
      resultFs (create_project_structure w n) := by
  have nst : pathJoin n "tests" ≠ pathJoin n "src" :=
    pathJoin_ne_of_ne n "tests" "src" (by decide)
  have nts : pathJoin n "src" ≠ pathJoin n "tests" :=
    pathJoin_ne_of_ne n "src" "tests" (by decide)
  by_cases hs : pathExists w (pathJoin n "src") = true
  · by_cases ht : pathExists w (pathJoin n "tests") = true
    · have hrun : create_project_structure w n =
          Except.ok ((), logE (logE w (LogEvent.srcExists (pathJoin n "src")))
            (LogEvent.testsExists (pathJoin n "tests"))) := by
        simp [create_project_structure, hs, ht, pathExists_logE]
      have pw1 : pathExists (logE (logE w (LogEvent.srcExists (pathJoin n "src")))
          (LogEvent.testsExists (pathJoin n "tests"))) (pathJoin n "src") = true := by
        rw [pathExists_logE, pathExists_logE]
        exact hs
      have pw2 : pathExists (logE (logE w (LogEvent.srcExists (pathJoin n "src")))
          (LogEvent.testsExists (pathJoin n "tests"))) (pathJoin n "tests") = true := by
        rw [pathExists_logE, pathExists_logE]
        exact ht
      rw [hrun]
      refine ⟨rfl, ?_, ?_, fun _ => ⟨rfl, ?_⟩, ?_, fun _ => ⟨rfl, ?_⟩, ?_, ?_⟩
      · simpa [resultWorld] using pw1
      · simpa [resultWorld] using pw2
      · simp [resultLog, log_logE]
      · intro hc
        rw [hs] at hc
        cases hc
      · simp [resultLog, log_logE]
      · intro hc
        rw [ht] at hc
        cases hc
      · simp [resultWorld, resultFs, create_project_structure, pw1, pw2,
          pathExists_logE, fs_logE]
    · rw [Bool.not_eq_true] at ht
      have hrun : create_project_structure w n =
          Except.ok ((), logE (mkdirFs (logE w (LogEvent.srcExists (pathJoin n "src")))
            (pathJoin n "tests")) (LogEvent.testsCreated (pathJoin n "tests"))) := by
        simp [create_project_structure, hs, ht, pathExists_logE, mkdirErr_logE, h2]
      have pw1 : pathExists (logE (mkdirFs (logE w (LogEvent.srcExists (pathJoin n "src")))
          (pathJoin n "tests")) (LogEvent.testsCreated (pathJoin n "tests")))
          (pathJoin n "src") = true := by
        rw [pathExists_logE, pathExists_mkdirFs_ne _ _ _ nts, pathExists_logE]
        exact hs
      have pw2 : pathExists (logE (mkdirFs (logE w (LogEvent.srcExists (pathJoin n "src")))
          (pathJoin n "tests")) (LogEvent.testsCreated (pathJoin n "tests")))
          (pathJoin n "tests") = true := by
        rw [pathExists_logE, pathExists_mkdirFs_self]
      rw [hrun]
      refine ⟨rfl, ?_, ?_, fun _ => ⟨?_, ?_⟩, ?_, ?_, fun _ => ?_, ?_⟩
      · simpa [resultWorld] using pw1
      · simpa [resultWorld] using pw2
      · simp [resultFs, fs_logE, fs_mkdirFs, lookup_setEntry_ne _ _ _ _ nts]
      · simp [resultLog, log_logE, log_mkdirFs]
      · intro hc
        rw [hs] at hc
        cases hc
      · intro hc
        rw [ht] at hc
        cases hc
      · simp [resultLog, log_logE, log_mkdirFs]
      · simp [resultWorld, resultFs, create_project_structure, pw1, pw2,
          pathExists_logE, fs_logE]
  · rw [Bool.not_eq_true] at hs
    by_cases ht : pathExists w (pathJoin n "tests") = true
    · have hrun : create_project_structure w n =
          Except.ok ((), logE (logE (mkdirFs w (pathJoin n "src"))
            (LogEvent.srcCreated (pathJoin n "src")))
            (LogEvent.testsExists (pathJoin n "tests"))) := by
        simp [create_project_structure, hs, ht, h1, pathExists_logE,
          pathExists_mkdirFs_ne _ _ _ nst]
      have pw1 : pathExists (logE (logE (mkdirFs w (pathJoin n "src"))
          (LogEvent.srcCreated (pathJoin n "src")))
          (LogEvent.testsExists (pathJoin n "tests"))) (pathJoin n "src") = true := by
        rw [pathExists_logE, pathExists_logE, pathExists_mkdirFs_self]
      have pw2 : pathExists (logE (logE (mkdirFs w (pathJoin n "src"))
          (LogEvent.srcCreated (pathJoin n "src")))
          (LogEvent.testsExists (pathJoin n "tests"))) (pathJoin n "tests") = true := by
        rw [pathExists_logE, pathExists_logE, pathExists_mkdirFs_ne _ _ _ nst]
        exact ht
      rw [hrun]
      refine ⟨rfl, ?_, ?_, ?_, fun _ => ?_, fun _ => ⟨?_, ?_⟩, ?_, ?_⟩
      · simpa [resultWorld] using pw1
      · simpa [resultWorld] using pw2
      · intro hc
        rw [hs] at hc
        cases hc
      · simp [resultLog, log_logE, log_mkdirFs]
      · simp [resultFs, fs_logE, fs_mkdirFs, lookup_setEntry_ne _ _ _ _ nst]
      · simp [resultLog, log_logE, log_mkdirFs]
      · intro hc
        rw [ht] at hc
        cases hc
      · simp [resultWorld, resultFs, create_project_structure, pw1, pw2,
          pathExists_logE, fs_logE]
    · rw [Bool.not_eq_true] at ht
      have hrun : create_project_structure w n =
          Except.ok ((), logE (mkdirFs (logE (mkdirFs w (pathJoin n "src"))
            (LogEvent.srcCreated (pathJoin n "src"))) (pathJoin n "tests"))
            (LogEvent.testsCreated (pathJoin n "tests"))) := by
        simp [create_project_structure, hs, ht, h1, h2, pathExists_logE,
          pathExists_mkdirFs_ne _ _ _ nst, mkdirErr_logE, mkdirErr_mkdirFs]
      have pw1 : pathExists (logE (mkdirFs (logE (mkdirFs w (pathJoin n "src"))
          (LogEvent.srcCreated (pathJoin n "src"))) (pathJoin n "tests"))
          (LogEvent.testsCreated (pathJoin n "tests"))) (pathJoin n "src") = true := by
        rw [pathExists_logE, pathExists_mkdirFs_ne _ _ _ nts, pathExists_logE,
          pathExists_mkdirFs_self]
      have pw2 : pathExists (logE (mkdirFs (logE (mkdirFs w (pathJoin n "src"))
          (LogEvent.srcCreated (pathJoin n "src"))) (pathJoin n "tests"))
          (LogEvent.testsCreated (pathJoin n "tests"))) (pathJoin n "tests") = true := by
        rw [pathExists_logE, pathExists_mkdirFs_self]
      rw [hrun]
      refine ⟨rfl, ?_, ?_, ?_, fun _ => ?_, ?_, fun _ => ?_, ?_⟩
      · simpa [resultWorld] using pw1
      · simpa [resultWorld] using pw2
      · intro hc
        rw [hs] at hc
        cases hc
      · simp [resultLog, log_logE, log_mkdirFs]
      · intro hc
        rw [ht] at hc
        cases hc
      · simp [resultLog, log_logE, log_mkdirFs]
      · simp [resultWorld, resultFs, create_project_structure, pw1, pw2,
          pathExists_logE, fs_logE]

/-- Witness for C8: a world holding the project folder and an existing src
subdirectory; tests is created, src is left alone. -/
theorem C8_create_project_structure_witness :
    returnedNormally (create_project_structure
      (mkWorld [("p", Entry.dir), ("p/src", Entry.dir)] (fun _ => "")) "p") = true ∧
    pathExists (resultWorld (create_project_structure
      (mkWorld [("p", Entry.dir), ("p/src", Entry.dir)] (fun _ => "")) "p"))
      (pathJoin "p" "tests") = true :=
  ⟨(C8_create_project_structure
      (mkWorld [("p", Entry.dir), ("p/src", Entry.dir)] (fun _ => "")) "p"
      (by decide) (by decide)).1,
   (C8_create_project_structure
      (mkWorld [("p", Entry.dir), ("p/src", Entry.dir)] (fun _ => "")) "p"
      (by decide) (by decide)).2.2.1⟩

/-- C9: the yes/no prompt strips surrounding whitespace before matching, so a
first response of " YES " is accepted as consent; and main strips the entered
project name before validating and using it, so entering "  my_project  "
validates the name "my_project" and creates the folder "my_project" (shown on
a run with an absent folder and no makedirs failures). -/
theorem C9_whitespace_stripping (w : World) :
    (w.stdin w.pos = " YES " →
      get_yes_no_input w 3 = Except.ok (true, { w with pos := w.pos + 1 })) ∧
    (w.interpreterOk = true →
     w.stdin w.pos = "  my_project  " →
     List.lookup "my_project" w.fs = none →
     List.lookup (pathJoin "my_project" "Pipfile") w.fs = none →
     List.lookup (pathJoin "my_project" ".gitignore") w.fs = none →
     List.lookup (pathJoin "my_project" "src") w.fs = none →
     List.lookup (pathJoin "my_project" "tests") w.fs = none →
     w.mkdirErr "my_project" = false →
     w.mkdirErr (pathJoin "my_project" "src") = false →
     w.mkdirErr (pathJoin "my_project" "tests") = false →
      processExit (main w) = 0 ∧
      List.lookup "my_project" (resultFs (main w)) = some Entry.dir ∧
      LogEvent.validName "my_project" ∈ resultLog (main w)) := by
  constructor
  · intro h
    rw [get_yes_no_input]
    simp [yesNoLoop, readLine, h, (by decide : pyLower (pyStrip " YES ") = "yes")]
  · intro hint hstdin h0 h1 h2 h3 h4 e0 e1 e2
    have hm : pyStrip (w.stdin w.pos) = "my_project" := by
      rw [hstdin]
      decide
    have nPm : pathJoin "my_project" "Pipfile" ≠ "my_project" := by decide
    have nGm : pathJoin "my_project" ".gitignore" ≠ "my_project" := by decide
    have nGP : pathJoin "my_project" ".gitignore" ≠ pathJoin "my_project" "Pipfile" := by decide
    have nSm : pathJoin "my_project" "src" ≠ "my_project" := by decide
    have nSP : pathJoin "my_project" "src" ≠ pathJoin "my_project" "Pipfile" := by decide
    have nSG : pathJoin "my_project" "src" ≠ pathJoin "my_project" ".gitignore" := by decide
    have nTm : pathJoin "my_project" "tests" ≠ "my_project" := by decide
    have nTP : pathJoin "my_project" "tests" ≠ pathJoin "my_project" "Pipfile" := by decide
    have nTG : pathJoin "my_project" "tests" ≠ pathJoin "my_project" ".gitignore" := by decide
    have nTS : pathJoin "my_project" "tests" ≠ pathJoin "my_project" "src" := by decide
    have mP : ("my_project" : String) ≠ pathJoin "my_project" "Pipfile" := by decide
    have mG : ("my_project" : String) ≠ pathJoin "my_project" ".gitignore" := by decide
    have mS : ("my_project" : String) ≠ pathJoin "my_project" "src" := by decide
    have mT : ("my_project" : String) ≠ pathJoin "my_project" "tests" := by decide
    refine ⟨?_, ?_, ?_⟩ <;>
      simp [main, check_python3_installed, hint, readLine, stdin_logE, pos_logE,
        verify_folder_name, hm, (by decide : reMatchFolderName "my_project" = true),
        manage_folder, pathExists, fs_logE, fs_mkdirFs, fs_writeFileFs,
        mkdirErr_logE, mkdirErr_mkdirFs, mkdirErr_writeFileFs,
        create_pipfile, create_gitignore, check_and_overwrite_file,
        create_project_structure, h0, h1, h2, h3, h4, e0, e1, e2,
        lookup_setEntry_self,
        lookup_setEntry_ne _ _ _ _ nPm, lookup_setEntry_ne _ _ _ _ nGm,
        lookup_setEntry_ne _ _ _ _ nGP, lookup_setEntry_ne _ _ _ _ nSm,
        lookup_setEntry_ne _ _ _ _ nSP, lookup_setEntry_ne _ _ _ _ nSG,
        lookup_setEntry_ne _ _ _ _ nTm, lookup_setEntry_ne _ _ _ _ nTP,
        lookup_setEntry_ne _ _ _ _ nTG, lookup_setEntry_ne _ _ _ _ nTS,
        lookup_setEntry_ne _ _ _ _ mP, lookup_setEntry_ne _ _ _ _ mG,
        lookup_setEntry_ne _ _ _ _ mS, lookup_setEntry_ne _ _ _ _ mT,
        processExit, resultFs, resultLog, log_logE, log_mkdirFs, log_writeFileFs]

/-- Witness for C9: concrete runs with the exact example inputs of the claim. -/
theorem C9_whitespace_stripping_witness :
    retValue (get_yes_no_input (mkWorld [] (fun _ => " YES ")) 3) = some true ∧
    List.lookup "my_project" (resultFs (main (mkWorld [] (fun _ => "  my_project  ")))) =
      some Entry.dir := by
  constructor
  · rw [(C9_whitespace_stripping (mkWorld [] (fun _ => " YES "))).1 rfl]
    rfl
  · exact ((C9_whitespace_stripping (mkWorld [] (fun _ => "  my_project  "))).2
      rfl rfl (by decide) (by decide) (by decide) (by decide) (by decide)
      rfl rfl rfl).2.1

end SetupProject
